import Mathlib

/-!
Verification development for the Mapillary imagery-map synchronizer component
(`src/libraries/mapillary/src/components/Mapillary/MapillaryModel.ts`).

The component is embedded shallowly: the mutable class fields become a state
record (`MapillaryModel`), each method becomes a function from state (and an
environment describing the outcomes of the external asynchronous calls) to an
`Outcome` record holding the resulting state, the ordered trace of externally
observable effects (framework commands and field assignments), and an optional
JavaScript error when the method throws or its returned promise rejects.

Two granularities are used. For facts about a single method invocation, each
method is an `Outcome`-valued function giving that invocation's own effect
trace; the completion of the `void`-discarded `_unsyncMaps` remove command is
recorded at the end of the invocation's trace, expressing that it is issued
but not awaited (no cross-invocation ordering is read off this model). For
the marker behaviour across sequences of assignments, a small-step `Machine`
model makes the event loop explicit: `void`-discarded calls leave pending
continuations suspended at their `await` points, and a schedule chooses which
settled promise resumes next, admitting overlapped `_syncMaps` cycles.

Numbers (coordinates, angles, scales) are modelled as rationals.
-/

namespace Mapillary

/-- Position as reported by the viewer SDK (the source's `{ lat, lon }`,
used for `_currentNodePosition` / `node.latLon` / `getPosition()`). -/
structure LatLon where
  lat : ℚ
  lon : ℚ
deriving DecidableEq, Repr

/-- Geometry position (the source's `{ latitude, longitude }`, used for
`Point` geometries and `currentMarkerPosition`). -/
structure Geo where
  latitude : ℚ
  longitude : ℚ
deriving DecidableEq, Repr

/-- The source's `MapillaryCamera` interface. -/
structure MapillaryCamera where
  latitude : ℚ
  longitude : ℚ
  heading : ℚ
  tilt : ℚ
  fov : ℚ
deriving DecidableEq, Repr

/-- The source's `getCameraRotationFromBearing`: convert a Mapillary bearing
to a scene camera rotation. -/
def getCameraRotationFromBearing (bearing : ℚ) : ℚ :=
  360 - bearing

/-- The viewer's `getPointOfView()` result `{ bearing, tilt }`. -/
structure Pov where
  bearing : ℚ
  tilt : ℚ
deriving DecidableEq, Repr

/-- A map view; only its `center` is read by the component
(`this.map.view.center`). -/
structure MapView where
  center : Geo
deriving DecidableEq, Repr

/-- A `MapModel` handle. `id` stands for the object's identity, so that the
setter's `instance === this._map` reference comparison can be modelled as
equality; `view` is the (possibly not yet initialized) view. -/
structure MapModel where
  id : Nat
  view : Option MapView
deriving DecidableEq, Repr

/-- `properties` of one feature of the image-index response. -/
structure FeatureProperties where
  key : Option String
deriving DecidableEq, Repr

/-- One feature of the image-index response; `properties` may be absent
(the source reads `features?.[0]?.properties?.key`). -/
structure Feature where
  properties : Option FeatureProperties
deriving DecidableEq, Repr

/-- The parsed JSON body of the image-index response; `features` may be absent
or of any length. -/
structure ImagesResponse where
  features : Option (List Feature)
deriving DecidableEq, Repr

/-- A JavaScript error surfaced by a method: either a `TypeError` from a
property access / destructuring on `undefined`, or the rejection of an awaited
external promise. -/
inductive JsError where
  | typeError
  | rejected
deriving DecidableEq, Repr

/-- Outcomes of the external asynchronous calls made by the component.
`Except.error ()` models a rejected promise; for the framework commands a
`Bool` records whether the command's promise fulfils. -/
structure Env where
  rawPosition : Except Unit LatLon
  pointOfView : Except Unit Pov
  fieldOfView : Except Unit ℚ
  fetchResponse : Except Unit ImagesResponse
  moveToKeyOk : Bool
  markerCreateOk : Bool
  markerUpdateOk : Bool
  zoomOk : Bool
deriving Repr

/-- The mutable state of the `MapillaryModel` class. Field names follow the
source (`viewer` is `_mapillary`, `nodePosition` is `_currentNodePosition`,
`handleMarkerUpdate` is `_handleMarkerUpdate`, `synced` is `_synced`,
`awaitViewActive` records whether the `watch("map.view")` handle registered in
`set map` is still live). The viewer handle is identified by a `Nat`. -/
structure MapillaryModel where
  id : String
  mapillaryKey : String
  searchRadius : ℚ
  defaultScale : ℚ
  startSynced : Bool
  synchronizePosition : Bool
  currentMarkerPosition : Option Geo
  updating : Bool
  nodePosition : Option LatLon
  handleMarkerUpdate : Bool
  synced : Bool
  viewer : Option Nat
  map : Option MapModel
  awaitViewActive : Bool
deriving DecidableEq, Repr

/-- Externally observable effects, in issue order. The marker-remove command
is split into its issue and its completion because the callers of
`_unsyncMaps` discard the promise with `void`. -/
inductive Ev where
  | activateCover
  | queryImages (lat lon radius : ℚ) (clientId : String)
  | moveToKey (key : String)
  | markerCreate (id : String) (geometry : Geo) (heading tilt fov : ℚ)
      (userDraggable : Bool)
  | markerUpdate (id : String) (geometry : Geo) (heading tilt fov : ℚ)
  | removeIssued (id : String)
  | removeCompleted (id : String)
  | zoomToViewpoint (rotation : ℚ) (target : Geo) (scale : ℚ)
  | viewerAssigned (v : Option Nat)
  | mapAssigned (m : Option Nat)
deriving DecidableEq, Repr

/-- Result of running one method: the state after it, the trace of effects it
produced, and `some e` when it threw (synchronously) or its promise rejected. -/
structure Outcome where
  state : MapillaryModel
  trace : List Ev
  err : Option JsError
deriving Repr

/-- `data?.features?.[0]?.properties?.key` followed by the truthiness test
`if (imgKey)`: the first feature must exist and carry a non-empty key. -/
def imgKeyOf (data : ImagesResponse) : Option String :=
  match data.features with
  | some (f :: _) =>
    match f.properties with
    | some p =>
      match p.key with
      | some k => if k = "" then none else some k
      | none => none
    | none => none
  | _ => none

/-- `_activateCover`: set `updating := false`, then call
`this.mapillary.activateCover()` — which throws a `TypeError` when no viewer
is attached. -/
def activateCoverOp (s : MapillaryModel) : Outcome :=
  match s.viewer with
  | some _ => ⟨{ s with updating := false }, [Ev.activateCover], none⟩
  | none => ⟨{ s with updating := false }, [], some JsError.typeError⟩

/-- `moveCloseToPosition(latitude, longitude)`: query the image index near the
given position; on a key, `await this.mapillary.moveToKey(imgKey)` and clear
`updating`; on no key, or on any fetch/parse failure, or on a rejected
`moveToKey`, the `catch`/`else` paths clear `updating` and run
`_activateCover`. -/
def moveCloseToPosition (s : MapillaryModel) (lat lon : ℚ) (env : Env) :
    Outcome :=
  let query : List Ev := [Ev.queryImages lat lon s.searchRadius s.mapillaryKey]
  match env.fetchResponse with
  | Except.error _ =>
    let o := activateCoverOp { s with updating := false }
    ⟨o.state, query ++ o.trace, o.err⟩
  | Except.ok data =>
    match imgKeyOf data with
    | some k =>
      match s.viewer with
      | none =>
        -- `this.mapillary.moveToKey` throws on an undefined viewer; the catch
        -- clause then calls `_activateCover`, which throws again.
        let o := activateCoverOp { s with updating := false }
        ⟨o.state, query ++ o.trace, o.err⟩
      | some _ =>
        if env.moveToKeyOk then
          ⟨{ s with updating := false }, query ++ [Ev.moveToKey k], none⟩
        else
          let o := activateCoverOp { s with updating := false }
          ⟨o.state, query ++ [Ev.moveToKey k] ++ o.trace, o.err⟩
    | none =>
      let o := activateCoverOp { s with updating := false }
      ⟨o.state, query ++ o.trace, o.err⟩

/-- `_getMapillaryCamera`: `undefined` when no viewer is attached; otherwise
`Promise.all` of the cached node position (falling back to the viewer's raw
GPS `getPosition()` only when no node position is cached), the point of view,
and the field of view, with the tilt adjusted by +90. -/
def getMapillaryCamera (s : MapillaryModel) (env : Env) :
    Except Unit (Option MapillaryCamera) :=
  match s.viewer with
  | none => Except.ok none
  | some _ =>
    let posE : Except Unit LatLon :=
      match s.nodePosition with
      | some p => Except.ok p
      | none => env.rawPosition
    match posE, env.pointOfView, env.fieldOfView with
    | Except.ok p, Except.ok pov, Except.ok fov =>
      Except.ok (some ⟨p.lat, p.lon, pov.bearing, pov.tilt + 90, fov⟩)
    | _, _, _ => Except.error ()

/-- `recenter()`: destructure the awaited camera (a `TypeError` when it is
`undefined`, i.e. when no viewer is attached) and command
`map.zoomToViewpoint` with rotation `getCameraRotationFromBearing(heading)`
and scale `defaultScale`. -/
def recenter (s : MapillaryModel) (env : Env) : Outcome :=
  match getMapillaryCamera s env with
  | Except.error _ => ⟨s, [], some JsError.rejected⟩
  | Except.ok none => ⟨s, [], some JsError.typeError⟩
  | Except.ok (some cam) =>
    let cmd := Ev.zoomToViewpoint (getCameraRotationFromBearing cam.heading)
      ⟨cam.latitude, cam.longitude⟩ s.defaultScale
    if env.zoomOk then ⟨s, [cmd], none⟩ else ⟨s, [cmd], some JsError.rejected⟩

/-- `_syncMaps`: no-op unless both handles are present and not yet synced;
otherwise mark synced, initialize `synchronizePosition`, read
`this.map.view.center` (a `TypeError` when the view is absent), run
`moveCloseToPosition`, resolve the camera, then `Promise.all` of
`locationMarker.create` and (when `synchronizePosition`) `map.zoomToViewpoint`. -/
def syncMaps (s : MapillaryModel) (env : Env) : Outcome :=
  match s.map, s.viewer with
  | some m, some _ =>
    if s.synced then ⟨s, [], none⟩
    else
      let s1 := { s with synced := true, synchronizePosition := s.startSynced }
      match m.view with
      | none => ⟨s1, [], some JsError.typeError⟩
      | some v =>
        let o1 := moveCloseToPosition s1 v.center.latitude v.center.longitude env
        match o1.err with
        | some e => ⟨o1.state, o1.trace, some e⟩
        | none =>
          match getMapillaryCamera o1.state env with
          | Except.error _ => ⟨o1.state, o1.trace, some JsError.rejected⟩
          | Except.ok none => ⟨o1.state, o1.trace, some JsError.typeError⟩
          | Except.ok (some cam) =>
            let pt : Geo := ⟨cam.latitude, cam.longitude⟩
            let tr : List Ev :=
              [Ev.markerCreate o1.state.id pt cam.heading cam.tilt cam.fov true]
                ++ (if o1.state.synchronizePosition then
                      [Ev.zoomToViewpoint
                        (getCameraRotationFromBearing cam.heading) pt
                        o1.state.defaultScale]
                    else [])
            ⟨o1.state, o1.trace ++ tr,
              if env.markerCreateOk
                  && (!o1.state.synchronizePosition || env.zoomOk) then none
              else some JsError.rejected⟩
  | _, _ => ⟨s, [], none⟩

/-- `set mapillary(instance)`: no-op on the identical handle; otherwise clean
up a previous viewer (activate its cover and `void this._unsyncMaps()`, which
synchronously clears `_synced` and issues the marker-remove command), store
the new handle, and then evaluate `!this._synced && this.map.view` — a
`TypeError` when no map is attached — triggering `void this._syncMaps()` when
the view is present. After a cleanup the `_synced` flag is always false, so
the `!this._synced` test is elided in that branch. -/
def setMapillary (s : MapillaryModel) (inst : Option Nat) (env : Env) :
    Outcome :=
  if inst = s.viewer then ⟨s, [], none⟩
  else
    match s.viewer with
    | some _ =>
      let s1 := { s with synced := false, viewer := inst }
      let pre : List Ev := [Ev.activateCover, Ev.removeIssued s.id,
        Ev.viewerAssigned inst, Ev.removeCompleted s.id]
      match s1.map with
      | none => ⟨s1, pre, some JsError.typeError⟩
      | some m =>
        match m.view with
        | none => ⟨s1, pre, none⟩
        | some _ =>
          let o := syncMaps s1 env
          -- the rejection of the voided `_syncMaps` promise is unhandled
          ⟨o.state, pre ++ o.trace, none⟩
    | none =>
      let s1 := { s with viewer := inst }
      if s1.synced then ⟨s1, [Ev.viewerAssigned inst], none⟩
      else
        match s1.map with
        | none => ⟨s1, [Ev.viewerAssigned inst], some JsError.typeError⟩
        | some m =>
          match m.view with
          | none => ⟨s1, [Ev.viewerAssigned inst], none⟩
          | some _ =>
            let o := syncMaps s1 env
            ⟨o.state, [Ev.viewerAssigned inst] ++ o.trace, none⟩

/-- `set map(instance)`: no-op on the identical handle; otherwise
`void this._unsyncMaps()` when a previous map exists, store the new handle,
and register the `watch("map.view")` handle. -/
def setMap (s : MapillaryModel) (inst : Option MapModel) : Outcome :=
  if inst = s.map then ⟨s, [], none⟩
  else
    match s.map with
    | some _ =>
      let s1 := { s with synced := false, map := inst, awaitViewActive := true }
      ⟨s1, [Ev.removeIssued s.id,
        Ev.mapAssigned (inst.map (fun m => m.id)),
        Ev.removeCompleted s.id], none⟩
    | none =>
      let s1 := { s with map := inst, awaitViewActive := true }
      ⟨s1, [Ev.mapAssigned (inst.map (fun m => m.id))], none⟩

/-- `_handleViewerUpdate(event)`: record the event geometry as
`currentMarkerPosition` unless `_handleMarkerUpdate` is false; in either case
`_handleMarkerUpdate` is set back to true. -/
def handleViewerUpdate (s : MapillaryModel) (geometry : Geo) :
    MapillaryModel :=
  if s.handleMarkerUpdate then
    { s with currentMarkerPosition := some geometry, handleMarkerUpdate := true }
  else
    { s with handleMarkerUpdate := true }

/-- One throttled invocation of `_onPerspectiveChange`: dropped when either
handle is absent or a cycle is in flight; otherwise set `updating`, resolve
the camera (on whose rejection `updating` is never reset — no `finally` covers
this await), clear `_handleMarkerUpdate`, and run the `Promise.all` of
`locationMarker.update` and (when `synchronizePosition`)
`map.zoomToViewpoint`, whose `finally` clears `updating`. -/
def onPerspectiveChange (s : MapillaryModel) (env : Env) : Outcome :=
  if s.map.isNone || s.viewer.isNone || s.updating then ⟨s, [], none⟩
  else
    let s1 := { s with updating := true }
    match getMapillaryCamera s1 env with
    | Except.error _ => ⟨s1, [], some JsError.rejected⟩
    | Except.ok none => ⟨s1, [], some JsError.typeError⟩
    | Except.ok (some cam) =>
      let pt : Geo := ⟨cam.latitude, cam.longitude⟩
      let s2 := { s1 with handleMarkerUpdate := false }
      let tr : List Ev :=
        [Ev.markerUpdate s2.id pt cam.heading cam.tilt cam.fov]
          ++ (if s2.synchronizePosition then
                [Ev.zoomToViewpoint (getCameraRotationFromBearing cam.heading)
                  pt s2.defaultScale]
              else [])
      ⟨{ s2 with updating := false }, tr,
        if env.markerUpdateOk && (!s2.synchronizePosition || env.zoomOk) then
          none
        else some JsError.rejected⟩

/-- The component's initial state: fresh handles, nothing synced, nothing
updating, marker updates handled. -/
def initState (cid key : String) (radius scale : ℚ) (startSynced : Bool) :
    MapillaryModel :=
  { id := cid, mapillaryKey := key, searchRadius := radius,
    defaultScale := scale, startSynced := startSynced,
    synchronizePosition := false, currentMarkerPosition := none,
    updating := false, nodePosition := none, handleMarkerUpdate := true,
    synced := false, viewer := none, map := none, awaitViewActive := false }

/-- A pending continuation of a `void`-discarded asynchronous call, suspended
at one of the `await` points of the sync/unsync machinery: `syncFetch` is
`_syncMaps` inside `moveCloseToPosition`, awaiting the image query
(fetch + json); `syncMove` awaits `moveToKey`; `syncCamera` awaits the
`Promise.all` of the three viewer queries in `_getMapillaryCamera`;
`syncPair` awaits the `Promise.all` of `locationMarker.create` and the
optional zoom; `unsyncRemove` is `_unsyncMaps` awaiting the
`locationMarker.remove` command. -/
inductive Pending where
  | syncFetch
  | syncMove (key : String)
  | syncCamera
  | syncPair
  | unsyncRemove
deriving DecidableEq, Repr

/-- Event-loop machine configuration: the component state, the pending
continuations, and the effect trace so far. -/
structure Machine where
  st : MapillaryModel
  tasks : List Pending
  trace : List Ev
deriving Repr

/-- The synchronous prefix of a voided `_syncMaps()` call: the guard, marking
synced, initializing `synchronizePosition`, reading `this.map.view.center`
(a TypeError when the view is absent — the rejection of the voided promise is
unhandled), and issuing the image query, leaving the continuation pending at
the fetch. -/
def syncStart (m : Machine) : Machine :=
  match m.st.map, m.st.viewer with
  | some mp, some _ =>
    if m.st.synced then m
    else
      let s1 := { m.st with
        synced := true, synchronizePosition := m.st.startSynced }
      match mp.view with
      | none => { m with st := s1 }
      | some v =>
        { st := s1, tasks := m.tasks ++ [Pending.syncFetch],
          trace := m.trace ++ [Ev.queryImages v.center.latitude
            v.center.longitude s1.searchRadius s1.mapillaryKey] }
  | _, _ => m

/-- The synchronous segment of `set mapillary(instance)` under the event-loop
model: cleanup (cover + voided `_unsyncMaps`, whose remove-command completion
becomes a pending task), the assignment, and the
`!this._synced && this.map.view` check starting a voided `_syncMaps`
(a TypeError, propagating to the framework caller, when no map is attached). -/
def setMapillaryStep (m : Machine) (inst : Option Nat) : Machine :=
  if inst = m.st.viewer then m
  else
    match m.st.viewer with
    | some _ =>
      let m1 : Machine :=
        { st := { m.st with synced := false, viewer := inst },
          tasks := m.tasks ++ [Pending.unsyncRemove],
          trace := m.trace ++ [Ev.activateCover, Ev.removeIssued m.st.id,
            Ev.viewerAssigned inst] }
      match m1.st.map with
      | none => m1
      | some mp =>
        match mp.view with
        | none => m1
        | some _ => syncStart m1
    | none =>
      let m1 : Machine :=
        { st := { m.st with viewer := inst }, tasks := m.tasks,
          trace := m.trace ++ [Ev.viewerAssigned inst] }
      if m1.st.synced then m1
      else
        match m1.st.map with
        | none => m1
        | some mp =>
          match mp.view with
          | none => m1
          | some _ => syncStart m1

/-- The synchronous segment of `set map(instance)` under the event-loop
model: the voided `_unsyncMaps` leaves a pending remove completion; the
`watch("map.view")` registration is recorded in `awaitViewActive`. -/
def setMapStep (m : Machine) (inst : Option MapModel) : Machine :=
  if inst = m.st.map then m
  else
    match m.st.map with
    | some _ =>
      { st := { m.st with
            synced := false, map := inst, awaitViewActive := true },
        tasks := m.tasks ++ [Pending.unsyncRemove],
        trace := m.trace ++ [Ev.removeIssued m.st.id,
          Ev.mapAssigned (inst.map fun x => x.id)] }
    | none =>
      { st := { m.st with map := inst, awaitViewActive := true },
        tasks := m.tasks,
        trace := m.trace ++ [Ev.mapAssigned (inst.map fun x => x.id)] }

/-- The attached map's view becomes available: the watch callback fires,
removes itself, and starts a voided `_syncMaps`. -/
def viewReadyStep (m : Machine) (v : MapView) : Machine :=
  match m.st.map with
  | none => m
  | some mp =>
    let m1 := { m with st := { m.st with
      map := some (MapModel.mk mp.id (some v)) } }
    if m1.st.awaitViewActive then
      syncStart { m1 with st := { m1.st with awaitViewActive := false } }
    else m1

/-- After `moveCloseToPosition` returns inside `_syncMaps`, camera resolution
starts: `_getMapillaryCamera` returns undefined when the viewer has been
cleared meanwhile, and the destructuring in `_syncMaps` then throws, ending
the cycle with no marker created; otherwise the continuation suspends on the
camera queries. -/
def afterMoveClose (st : MapillaryModel) (rest : List Pending)
    (trace : List Ev) : Machine :=
  match st.viewer with
  | none => ⟨st, rest, trace⟩
  | some _ => ⟨st, rest ++ [Pending.syncCamera], trace⟩

/-- Fire the settlement of the promise the pending task at index `i` is
awaiting (the scheduler's choice of which external promise settles next); the
continuation runs on the current state up to its next `await` or to the end
of the cycle. Out-of-range indices are no-ops. A cycle that throws or whose
awaited promise rejects simply disappears: its rejection is unhandled, the
call having been `void`-discarded, and nothing after the failing `await`
runs. The code rechecks neither `_synced` nor the handles after an `await`,
and cancels nothing, so a resumed continuation acts on whatever the current
state is. -/
def resume (m : Machine) (env : Env) (i : Nat) : Machine :=
  match m.tasks[i]? with
  | none => m
  | some t =>
    let rest := m.tasks.eraseIdx i
    match t with
    | Pending.unsyncRemove =>
      ⟨m.st, rest, m.trace ++ [Ev.removeCompleted m.st.id]⟩
    | Pending.syncFetch =>
      match env.fetchResponse with
      | Except.error _ =>
        -- catch: `updating := false`; `_activateCover` (throws with no viewer)
        match m.st.viewer with
        | some _ => ⟨{ m.st with updating := false }, rest,
            m.trace ++ [Ev.activateCover]⟩
        | none => ⟨{ m.st with updating := false }, rest, m.trace⟩
      | Except.ok data =>
        match imgKeyOf data with
        | some k =>
          match m.st.viewer with
          | none =>
            -- `this.mapillary.moveToKey` throws; caught; `_activateCover` throws
            ⟨{ m.st with updating := false }, rest, m.trace⟩
          | some _ =>
            ⟨m.st, rest ++ [Pending.syncMove k], m.trace ++ [Ev.moveToKey k]⟩
        | none =>
          match m.st.viewer with
          | some _ => ⟨{ m.st with updating := false }, rest,
              m.trace ++ [Ev.activateCover]⟩
          | none => ⟨{ m.st with updating := false }, rest, m.trace⟩
    | Pending.syncMove _ =>
      if env.moveToKeyOk then
        afterMoveClose { m.st with updating := false } rest m.trace
      else
        -- catch: `updating := false`; `_activateCover` (throws with no
        -- viewer, ending the cycle); then `moveCloseToPosition` returns
        -- normally and `_syncMaps` proceeds to the camera
        match m.st.viewer with
        | some _ => afterMoveClose { m.st with updating := false } rest
            (m.trace ++ [Ev.activateCover])
        | none => ⟨{ m.st with updating := false }, rest, m.trace⟩
    | Pending.syncCamera =>
      let posE : Except Unit LatLon :=
        match m.st.nodePosition with
        | some p => Except.ok p
        | none => env.rawPosition
      match posE, env.pointOfView, env.fieldOfView with
      | Except.ok p, Except.ok pov, Except.ok fov =>
        let pt : Geo := ⟨p.lat, p.lon⟩
        ⟨m.st, rest ++ [Pending.syncPair],
          m.trace
            ++ [Ev.markerCreate m.st.id pt pov.bearing (pov.tilt + 90) fov true]
            ++ (if m.st.synchronizePosition then
                  [Ev.zoomToViewpoint (getCameraRotationFromBearing pov.bearing)
                    pt m.st.defaultScale]
                else [])⟩
      | _, _, _ => ⟨m.st, rest, m.trace⟩
    | Pending.syncPair => ⟨m.st, rest, m.trace⟩

/-- One scheduler action: dispatch an assignment or a view arrival, or settle
the promise a pending task is awaiting. -/
inductive SchedOp where
  | assignViewer (v : Option Nat)
  | assignMap (mm : Option MapModel)
  | viewArrives (v : MapView)
  | complete (i : Nat)
deriving Repr

def machineStep (env : Env) (m : Machine) : SchedOp → Machine
  | SchedOp.assignViewer v => setMapillaryStep m v
  | SchedOp.assignMap mm => setMapStep m mm
  | SchedOp.viewArrives v => viewReadyStep m v
  | SchedOp.complete i => resume m env i

def machineRun (env : Env) (m : Machine) : List SchedOp → Machine
  | [] => m
  | op :: ops => machineRun env (machineStep env m op) ops

/-- The machine's initial configuration. -/
def initMachine (cid key : String) (radius scale : ℚ) (startSynced : Bool) :
    Machine :=
  ⟨initState cid key radius scale startSynced, [], []⟩

/-- Effect of one event on the number of live location markers carrying the
given component id: a create adds one, a completed remove removes the marker. -/
def markerStepCount (cid : String) (c : Nat) : Ev → Nat
  | Ev.markerCreate i _ _ _ _ _ => if i = cid then c + 1 else c
  | Ev.removeCompleted i => if i = cid then c - 1 else c
  | _ => c

/-- Number of markers with the given id created and not yet removed, starting
from `c` live markers, after a trace. -/
def countFrom (cid : String) (c : Nat) (t : List Ev) : Nat :=
  t.foldl (markerStepCount cid) c

/-- Number of markers with the given id created and not yet removed after a
trace. -/
def markerCount (cid : String) (t : List Ev) : Nat :=
  countFrom cid 0 t

/-- Position of the first occurrence of an event in a trace. -/
def idxOf (t : List Ev) (e : Ev) : Option Nat :=
  t.findIdx? (fun x => decide (x = e))

/-- `before t a b` holds when both events occur in the trace and the first
occurrence of `a` is strictly before the first occurrence of `b`. -/
def before (t : List Ev) (a b : Ev) : Bool :=
  match idxOf t a, idxOf t b with
  | some i, some j => decide (i < j)
  | _, _ => false

deriving instance DecidableEq for Except

/-- An environment in which every external call succeeds: the image index
returns one feature with key "abc", and the viewer reports position (5, 6),
bearing 90, tilt 10, field of view 60. -/
def envOk : Env :=
  { rawPosition := Except.ok ⟨5, 6⟩, pointOfView := Except.ok ⟨90, 10⟩,
    fieldOfView := Except.ok 60,
    fetchResponse := Except.ok ⟨some [⟨some ⟨some "abc"⟩⟩]⟩,
    moveToKeyOk := true, markerCreateOk := true, markerUpdateOk := true,
    zoomOk := true }

/-- Like `envOk` but the viewer's `getPointOfView()` promise rejects. -/
def envPovFail : Env := { envOk with pointOfView := Except.error () }

/-- A map handle whose view is already initialized, centered at (40, 50). -/
def mapReady : MapModel := ⟨7, some ⟨⟨40, 50⟩⟩⟩

/-- A second, distinct map handle with no view yet. -/
def mapBare : MapModel := ⟨8, none⟩

/-- A component state with both a viewer and a ready map attached, not yet
synced, no cycle in flight. -/
def stBoth : MapillaryModel :=
  { initState "c" "k" 500 3000 true with viewer := some 1, map := some mapReady }

/-- A component state with both handles attached and the initial sync done. -/
def stSynced : MapillaryModel :=
  { initState "c" "k" 500 3000 true with
      viewer := some 1, map := some mapReady, synced := true }

/-- A component state with a viewer attached and a merged node position
(7, 8) cached. -/
def stNode : MapillaryModel :=
  { initState "c" "k" 500 3000 true with
      viewer := some 1, nodePosition := some ⟨7, 8⟩ }

/-- A component state in which the suppress-echo flag is set
(`_handleMarkerUpdate = false`) and a marker position was recorded before. -/
def stSuppressed : MapillaryModel :=
  { initState "c" "k" 500 3000 true with
      handleMarkerUpdate := false, currentMarkerPosition := some ⟨1, 2⟩ }

/-- The interleaved schedule refuting C5: attach the ready map, attach
viewer 1 (sync cycle A starts and suspends at its image query), reassign to
viewer 2 while A is suspended (the voided unsync issues one remove; sync
cycle B starts and suspends at its own query), let the remove complete, then
let A and B each run to their marker creation. -/
def schedC5 : List SchedOp :=
  [SchedOp.assignMap (some mapReady), SchedOp.assignViewer (some 1),
   SchedOp.assignViewer (some 2), SchedOp.complete 1, SchedOp.complete 0,
   SchedOp.complete 1, SchedOp.complete 1, SchedOp.complete 0,
   SchedOp.complete 1, SchedOp.complete 1]

/-- The effect trace produced by `schedC5`: a single marker removal followed
by two marker creations under the same component id. -/
def trC5 : List Ev :=
  [Ev.mapAssigned (some 7), Ev.viewerAssigned (some 1),
   Ev.queryImages 40 50 500 "k", Ev.activateCover, Ev.removeIssued "c",
   Ev.viewerAssigned (some 2), Ev.queryImages 40 50 500 "k",
   Ev.removeCompleted "c", Ev.moveToKey "abc",
   Ev.markerCreate "c" ⟨5, 6⟩ 90 (10 + 90) 60 true,
   Ev.zoomToViewpoint (360 - 90) ⟨5, 6⟩ 3000, Ev.moveToKey "abc",
   Ev.markerCreate "c" ⟨5, 6⟩ 90 (10 + 90) 60 true,
   Ev.zoomToViewpoint (360 - 90) ⟨5, 6⟩ 3000]

/-- All ways `moveCloseToPosition` can end leave the state equal to the input
state with `updating` cleared. -/
theorem moveClose_state (s : MapillaryModel) (lat lon : ℚ) (env : Env) :
    (moveCloseToPosition s lat lon env).state = { s with updating := false } := by
  simp only [moveCloseToPosition, activateCoverOp]
  repeat' split
  all_goals rfl

/-- `moveCloseToPosition` never rejects when a viewer is attached. -/
theorem moveClose_err (s : MapillaryModel) (lat lon : ℚ) (env : Env) (v : Nat)
    (hv : s.viewer = some v) :
    (moveCloseToPosition s lat lon env).err = none := by
  simp only [moveCloseToPosition, activateCoverOp, hv]
  repeat' split
  all_goals simp_all

/-- `moveCloseToPosition` never issues a `map.zoomToViewpoint` command. -/
theorem moveClose_no_zoom (s : MapillaryModel) (lat lon : ℚ) (env : Env)
    (r : ℚ) (tg : Geo) (sc : ℚ) :
    Ev.zoomToViewpoint r tg sc ∉ (moveCloseToPosition s lat lon env).trace := by
  simp only [moveCloseToPosition, activateCoverOp]
  repeat' split
  all_goals simp

/-- Whatever position source is used, a camera produced by
`_getMapillaryCamera` carries the bearing reported by `getPointOfView`. -/
theorem getCam_heading (s : MapillaryModel) (env : Env) (cam : MapillaryCamera)
    (b t : ℚ) (hpov : env.pointOfView = Except.ok ⟨b, t⟩)
    (h : getMapillaryCamera s env = Except.ok (some cam)) :
    cam.heading = b := by
  simp only [getMapillaryCamera, hpov] at h
  split at h
  · exact absurd h (by simp)
  · split at h
    case h_1 p pov fov hp hpv hfv => cases hpv; cases h; rfl
    all_goals exact absurd h (by simp)

/-- C1: the claim says assigning a viewer instance when no map is attached
completes without raising an error; on the code, the assignment stores the
handle and attaches the listeners, but the sync check `this.map.view` then
dereferences the undefined map and throws a TypeError. Evaluated at the
initial state (no map, not synced) with a fresh viewer handle. -/
theorem C1_assign_viewer_without_map_throws :
    (setMapillary (initState "c" "k" 500 3000 true) (some 1) envOk).err
      = some JsError.typeError ∧
    (setMapillary (initState "c" "k" 500 3000 true) (some 1) envOk).state.viewer
      = some 1 ∧
    (setMapillary (initState "c" "k" 500 3000 true) (some 1) envOk).trace
      = [Ev.viewerAssigned (some 1)] := by
  decide

/-- C2: the claim says recentre with no viewer attached is a no-op that
completes without raising an error; on the code, `_getMapillaryCamera` does
resolve to undefined and no map command is issued, but destructuring the
undefined camera in `recenter` throws a TypeError. Evaluated at the initial
state, where no viewer is attached. -/
theorem C2_recenter_without_viewer_throws :
    getMapillaryCamera (initState "c" "k" 500 3000 true) envOk
      = Except.ok none ∧
    (recenter (initState "c" "k" 500 3000 true) envOk).err
      = some JsError.typeError ∧
    (recenter (initState "c" "k" 500 3000 true) envOk).trace = [] := by
  refine ⟨rfl, by decide, by decide⟩

/-- C3 counterexample: a point-of-view cycle that sets `updating` and whose
camera-resolution step (`getPointOfView` rejecting) fails ends with
`updating` still true — the `finally` that clears the flag only guards the
later marker-update/zoom pair, so the claim's "reset on every outcome
including failure of any asynchronous step" is false. -/
theorem C3_counterexample_camera_failure_keeps_updating :
    stBoth.updating = false ∧
    (onPerspectiveChange stBoth envPovFail).state.updating = true ∧
    (onPerspectiveChange stBoth envPovFail).err = some JsError.rejected := by
  decide

/-- C3 amended: in a point-of-view cycle that passes the guard, `updating` is
reset before the cycle ends on every outcome of the concurrent
marker-update/map-recentre pair, but when camera resolution itself fails the
cycle rejects with `updating` left permanently true. -/
theorem C3_updating_cleared_unless_camera_resolution_fails
    (s : MapillaryModel) (env : Env) (hm : s.map.isNone = false)
    (hv : s.viewer.isNone = false) (hu : s.updating = false) :
    (∀ cam, getMapillaryCamera { s with updating := true } env
        = Except.ok (some cam) →
      (onPerspectiveChange s env).state.updating = false) ∧
    (∀ e, getMapillaryCamera { s with updating := true } env
        = Except.error e →
      (onPerspectiveChange s env).state.updating = true ∧
      (onPerspectiveChange s env).err = some JsError.rejected) := by
  constructor
  · intro cam hcam
    simp only [onPerspectiveChange, hm, hv, hu, hcam]
    simp
  · intro e hcam
    simp only [onPerspectiveChange, hm, hv, hu, hcam]
    simp

theorem C3_updating_cleared_unless_camera_resolution_fails_witness :
    stBoth.map.isNone = false ∧ stBoth.viewer.isNone = false ∧
    stBoth.updating = false ∧
    (onPerspectiveChange stBoth envOk).state.updating = false :=
  ⟨by decide, by decide, by decide,
    (C3_updating_cleared_unless_camera_resolution_fails stBoth envOk
      (by decide) (by decide) (by decide)).1 ⟨5, 6, 90, 10 + 90, 60⟩ rfl⟩

/-- C4 counterexample: replacing the viewer while synced overwrites the
`_mapillary` field strictly before the voided `_unsyncMaps` marker-remove
command completes, so the unsynchronize operation is not awaited to
completion before the owning handle is overwritten. -/
theorem C4_counterexample_handle_overwritten_before_removal_completes :
    Ev.removeCompleted "c" ∈ (setMapillary stSynced (some 2) envOk).trace ∧
    Ev.viewerAssigned (some 2) ∈ (setMapillary stSynced (some 2) envOk).trace ∧
    before (setMapillary stSynced (some 2) envOk).trace
      (Ev.viewerAssigned (some 2)) (Ev.removeCompleted "c") = true ∧
    before (setMapillary stSynced (some 2) envOk).trace
      (Ev.removeCompleted "c") (Ev.viewerAssigned (some 2)) = false := by
  decide

/-- C4 amended: when a viewer or map handle is replaced or cleared, the
unsynchronize operation is started synchronously — not-synced is marked and
the marker-remove command is issued before the handle field is overwritten —
but its completion is not awaited: the removal completes only after the
handle has been overwritten. -/
theorem C4_unsync_started_before_assignment_but_not_awaited
    (s : MapillaryModel) (env : Env) :
    (∀ inst v, s.viewer = some v → inst ≠ some v →
      ∃ r, (setMapillary s inst env).trace =
        Ev.activateCover :: Ev.removeIssued s.id :: Ev.viewerAssigned inst ::
          Ev.removeCompleted s.id :: r) ∧
    (∀ inst m, s.map = some m → inst ≠ some m →
      (setMap s inst).trace =
        [Ev.removeIssued s.id, Ev.mapAssigned (inst.map fun x => x.id),
          Ev.removeCompleted s.id]) := by
  constructor
  · intro inst v hv hne
    simp only [setMapillary, hv, if_neg hne]
    repeat' split
    all_goals exact ⟨_, rfl⟩
  · intro inst m hm hne
    simp only [setMap, hm, if_neg hne]

theorem C4_unsync_started_before_assignment_but_not_awaited_witness :
    (∃ r, (setMapillary stSynced (some 2) envOk).trace =
      Ev.activateCover :: Ev.removeIssued "c" :: Ev.viewerAssigned (some 2) ::
        Ev.removeCompleted "c" :: r) ∧
    (setMap stSynced (some mapBare)).trace =
      [Ev.removeIssued "c", Ev.mapAssigned (some 8), Ev.removeCompleted "c"] :=
  ⟨(C4_unsync_started_before_assignment_but_not_awaited stSynced envOk).1
      (some 2) 1 (by decide) (by decide),
    (C4_unsync_started_before_assignment_but_not_awaited stSynced envOk).2
      (some mapBare) mapReady (by decide) (by decide)⟩

/-- C5: the claim fails on the code. Under the event-loop schedule `schedC5`
— the viewer reassigned while the first voided `_syncMaps` is suspended at
its image query, as the single-threaded dispatch admits — nothing rechecks
`_synced` after an `await` and nothing is cancelled, so both sync
continuations resume and each issues `locationMarker.create` under the
component id, while the single marker-remove was issued, and completed,
before either create: two markers are created and not yet removed, and the
final unsynchronize completes with creations still to land after it. -/
theorem C5_two_markers_created_under_interleaving :
    (machineRun envOk (initMachine "c" "k" 500 3000 true) schedC5).trace
      = trC5 ∧
    markerCount "c"
      (machineRun envOk (initMachine "c" "k" 500 3000 true) schedC5).trace
      = 2 :=
  ⟨rfl, by decide⟩

/-- C6: with a viewer attached, `moveCloseToPosition` commands navigation to
the first feature's key when the index query succeeds with a keyed feature
(whether or not the navigation promise later fulfils) and leaves `updating`
false; on a successful query with no usable feature, or on a fetch/parse
failure, it leaves `updating` false, commands the cover/idle state, and
issues no navigation command. -/
theorem C6_find_nearest_image_branches (s : MapillaryModel) (env : Env)
    (lat lon : ℚ) (v : Nat) (hv : s.viewer = some v) :
    (∀ data k, env.fetchResponse = Except.ok data → imgKeyOf data = some k →
      env.moveToKeyOk = true →
      (moveCloseToPosition s lat lon env).trace
        = [Ev.queryImages lat lon s.searchRadius s.mapillaryKey,
           Ev.moveToKey k] ∧
      (moveCloseToPosition s lat lon env).state.updating = false ∧
      (moveCloseToPosition s lat lon env).err = none) ∧
    (∀ data k, env.fetchResponse = Except.ok data → imgKeyOf data = some k →
      env.moveToKeyOk = false →
      (moveCloseToPosition s lat lon env).trace
        = [Ev.queryImages lat lon s.searchRadius s.mapillaryKey,
           Ev.moveToKey k, Ev.activateCover] ∧
      (moveCloseToPosition s lat lon env).state.updating = false) ∧
    (∀ data, env.fetchResponse = Except.ok data → imgKeyOf data = none →
      (moveCloseToPosition s lat lon env).trace
        = [Ev.queryImages lat lon s.searchRadius s.mapillaryKey,
           Ev.activateCover] ∧
      (moveCloseToPosition s lat lon env).state.updating = false ∧
      ∀ k2, Ev.moveToKey k2 ∉ (moveCloseToPosition s lat lon env).trace) ∧
    (∀ e, env.fetchResponse = Except.error e →
      (moveCloseToPosition s lat lon env).trace
        = [Ev.queryImages lat lon s.searchRadius s.mapillaryKey,
           Ev.activateCover] ∧
      (moveCloseToPosition s lat lon env).state.updating = false ∧
      ∀ k2, Ev.moveToKey k2 ∉ (moveCloseToPosition s lat lon env).trace) := by
  refine ⟨?_, ?_, ?_, ?_⟩ <;> intros <;>
    simp_all [moveCloseToPosition, activateCoverOp, hv]

theorem C6_find_nearest_image_branches_witness :
    stBoth.viewer = some 1 ∧
    ((moveCloseToPosition stBoth 40 50 envOk).trace
        = [Ev.queryImages 40 50 500 "k", Ev.moveToKey "abc"] ∧
      (moveCloseToPosition stBoth 40 50 envOk).state.updating = false ∧
      (moveCloseToPosition stBoth 40 50 envOk).err = none) :=
  ⟨by decide, (C6_find_nearest_image_branches stBoth envOk 40 50 1
      (by decide)).1 ⟨some [⟨some ⟨some "abc"⟩⟩]⟩ "abc"
      (by decide) (by decide) (by decide)⟩

/-- C7: whenever a merged node position P is cached, `_getMapillaryCamera`
returns a camera whose latitude/longitude equal P, for every outcome of the
raw-GPS `getPosition()` query (the `??` short-circuit never consults it). -/
theorem C7_merged_position_preferred (s : MapillaryModel) (env : Env)
    (v : Nat) (P : LatLon) (pov : Pov) (f : ℚ) (hv : s.viewer = some v)
    (hn : s.nodePosition = some P) (hpov : env.pointOfView = Except.ok pov)
    (hfov : env.fieldOfView = Except.ok f) :
    getMapillaryCamera s env
      = Except.ok (some ⟨P.lat, P.lon, pov.bearing, pov.tilt + 90, f⟩) := by
  simp only [getMapillaryCamera, hv, hn, hpov, hfov]

theorem C7_merged_position_preferred_witness :
    stNode.viewer = some 1 ∧ stNode.nodePosition = some ⟨7, 8⟩ ∧
    envOk.pointOfView = Except.ok ⟨90, 10⟩ ∧
    envOk.fieldOfView = Except.ok 60 ∧ envOk.rawPosition = Except.ok ⟨5, 6⟩ ∧
    getMapillaryCamera stNode envOk
      = Except.ok (some ⟨7, 8, 90, 10 + 90, 60⟩) :=
  ⟨by decide, by decide, by decide, by decide, by decide,
    C7_merged_position_preferred stNode envOk 1 ⟨7, 8⟩ ⟨90, 10⟩ 60
      (by decide) (by decide) (by decide) (by decide)⟩

/-- C8: a marker-update event delivered while the suppress-echo flag is set
(`_handleMarkerUpdate = false`) leaves `currentMarkerPosition` unchanged and
resets the flag, so the next marker-update event is recorded normally. -/
theorem C8_suppressed_marker_echo_consumed (s : MapillaryModel) (g g2 : Geo)
    (h : s.handleMarkerUpdate = false) :
    (handleViewerUpdate s g).currentMarkerPosition = s.currentMarkerPosition ∧
    (handleViewerUpdate s g).handleMarkerUpdate = true ∧
    (handleViewerUpdate (handleViewerUpdate s g) g2).currentMarkerPosition
      = some g2 := by
  simp [handleViewerUpdate, h]

theorem C8_suppressed_marker_echo_consumed_witness :
    stSuppressed.handleMarkerUpdate = false ∧
    ((handleViewerUpdate stSuppressed ⟨3, 4⟩).currentMarkerPosition
        = stSuppressed.currentMarkerPosition ∧
      (handleViewerUpdate stSuppressed ⟨3, 4⟩).handleMarkerUpdate = true ∧
      (handleViewerUpdate
          (handleViewerUpdate stSuppressed ⟨3, 4⟩) ⟨5, 6⟩).currentMarkerPosition
        = some ⟨5, 6⟩) :=
  ⟨by decide, C8_suppressed_marker_echo_consumed stSuppressed ⟨3, 4⟩ ⟨5, 6⟩
    (by decide)⟩

/-- C9: for every heading b in [0, 360) reported by the viewer, the rotation
carried by any `map.zoomToViewpoint` command emitted by `recenter`,
`_syncMaps` or `_onPerspectiveChange` equals exactly 360 − b, as does
`getCameraRotationFromBearing b`. -/
theorem C9_rotation_equals_360_minus_heading (s : MapillaryModel) (env : Env)
    (b t : ℚ) (hb0 : 0 ≤ b) (hb1 : b < 360)
    (hpov : env.pointOfView = Except.ok ⟨b, t⟩) :
    getCameraRotationFromBearing b = 360 - b ∧
    (∀ r tg sc, Ev.zoomToViewpoint r tg sc ∈ (recenter s env).trace →
      r = 360 - b) ∧
    (∀ r tg sc, Ev.zoomToViewpoint r tg sc ∈ (syncMaps s env).trace →
      r = 360 - b) ∧
    (∀ r tg sc, Ev.zoomToViewpoint r tg sc ∈ (onPerspectiveChange s env).trace →
      r = 360 - b) := by
  refine ⟨rfl, ?_, ?_, ?_⟩
  · intro r tg sc hmem
    simp only [recenter] at hmem
    split at hmem
    · simp at hmem
    · simp at hmem
    case h_3 cam hcam =>
      have hh := getCam_heading s env cam b t hpov hcam
      split at hmem <;>
        (simp [getCameraRotationFromBearing] at hmem; rw [hmem.1, hh])
  · intro r tg sc hmem
    simp only [syncMaps] at hmem
    split at hmem
    case h_2 => simp at hmem
    case h_1 m w hm hw =>
      split at hmem
      · simp at hmem
      · split at hmem
        · simp at hmem
        case h_2 v hview =>
          split at hmem
          · exact absurd hmem (moveClose_no_zoom _ _ _ _ _ _ _)
          · split at hmem
            · exact absurd hmem (moveClose_no_zoom _ _ _ _ _ _ _)
            · exact absurd hmem (moveClose_no_zoom _ _ _ _ _ _ _)
            case h_3 cam hcam =>
              have hh := getCam_heading _ env cam b t hpov hcam
              rw [List.mem_append] at hmem
              rcases hmem with hmem | hmem
              · exact absurd hmem (moveClose_no_zoom _ _ _ _ _ _ _)
              · simp [getCameraRotationFromBearing] at hmem
                rw [hmem.2.1, hh]
  · intro r tg sc hmem
    simp only [onPerspectiveChange] at hmem
    split at hmem
    · simp at hmem
    · split at hmem
      · simp at hmem
      · simp at hmem
      case h_3 cam hcam =>
        have hh := getCam_heading _ env cam b t hpov hcam
        simp [getCameraRotationFromBearing] at hmem
        rw [hmem.2.1, hh]

theorem C9_rotation_equals_360_minus_heading_witness :
    (0 : ℚ) ≤ 90 ∧ (90 : ℚ) < 360 ∧
    envOk.pointOfView = Except.ok ⟨90, 10⟩ ∧
    (getCameraRotationFromBearing 90 = 360 - 90 ∧
      (∀ r tg sc, Ev.zoomToViewpoint r tg sc ∈ (recenter stBoth envOk).trace →
        r = 360 - 90) ∧
      (∀ r tg sc, Ev.zoomToViewpoint r tg sc ∈ (syncMaps stBoth envOk).trace →
        r = 360 - 90) ∧
      (∀ r tg sc,
        Ev.zoomToViewpoint r tg sc ∈ (onPerspectiveChange stBoth envOk).trace →
        r = 360 - 90)) :=
  ⟨by decide, by decide, by decide,
    C9_rotation_equals_360_minus_heading stBoth envOk 90 10
      (by decide) (by decide) (by decide)⟩

/-- C10: provided a viewer is attached, `moveCloseToPosition` never rejects:
for every behaviour of the fetch (rejection, unparsable body, any JSON shape)
and of the viewer navigation call, it completes normally. -/
theorem C10_moveCloseToPosition_never_rejects (s : MapillaryModel)
    (lat lon : ℚ) (env : Env) (v : Nat) (hv : s.viewer = some v) :
    (moveCloseToPosition s lat lon env).err = none :=
  moveClose_err s lat lon env v hv

theorem C10_moveCloseToPosition_never_rejects_witness :
    stBoth.viewer = some 1 ∧
    (moveCloseToPosition stBoth 40 50 envPovFail).err = none :=
  ⟨by decide, C10_moveCloseToPosition_never_rejects stBoth 40 50 envPovFail 1
    (by decide)⟩

end Mapillary
